import Mathlib

/-!
# Verification of the tronapi client slice

Shallow embedding of `tronapi/main.py` (class `Tron`: the `default_block`,
`private_key` and `default_address` setters, and `get_event_result`) and of
`tronapi/transactions.py` (`TransactionBuilder.send_trx`).

Conventions:
* Python exceptions become the `TErr` inductive; the abstract error kinds
  named by the specification map to raise sites as follows: `ValidationError` ≙
  `ValueError`, `InvalidAmountError`/`InvalidAddressError` at validation
  sites ≙ `InvalidTronError`, `SameAccountError` and `InvalidKeyError` ≙
  `TronError`.
* A setter returns the final state paired with `Option TErr`: `some e` means
  the Python code raised `e`, and the returned state holds whatever
  mutations had already happened before the raise (none escape in practice,
  which is exactly what we prove).
* An operation that can reach the HTTP transport returns the list of
  requests it issued together with its result, so "no network call before
  validation" is a provable statement, not an artifact of the embedding.
* Helpers imported by `main.py` from modules absent from the source tree
  (`tronapi.base.account`, `tronapi.base.validation`, `tronapi.utils.*`)
  are modelled from the specification; each such definition says so in its
  doc comment. Address strings are represented abstractly: `AddrStr.hexs i`
  and `AddrStr.b58s i` are the hex and base58 encodings of the address with
  identity `i`, and `AddrStr.bad s` is any malformed string.
-/

/-- A Python value that can be passed for `block_id`, `since` or `page`:
an `int` or a `str`. -/
inductive PyVal where
  | int (n : Int)
  | str (s : String)
deriving DecidableEq, Repr

/-- A Python numeric value passed for `amount`: an `int` or a `float`
(floats are modelled as rationals; every literal the claims mention is
exactly representable). -/
inductive PyNum where
  | int (n : Int)
  | float (q : ℚ)
deriving DecidableEq, Repr

/-- An address-shaped string. `hexs i` / `b58s i` are the hex and base58
encodings of the address whose abstract identity is `i`; `bad s` is a
string that is not a well-formed address in either encoding. -/
inductive AddrStr where
  | hexs (id : Nat)
  | b58s (id : Nat)
  | bad (s : String)
deriving DecidableEq, Repr

/-- Python exceptions raised by the embedded slice. -/
inductive TErr where
  | attributeError (name : String)
  | invalidTronError (msg : String)
  | tronError (msg : String)
  | valueError (msg : String)
deriving DecidableEq, Repr

/-- An HTTP request handed to the node-client facade (`TronManager` /
`full_node`). -/
structure Request where
  path : String
  params : List (String × String)
  method : String
deriving DecidableEq, Repr

/-- The mutable session fields of a `Tron` instance (`main.py`, class
attributes `_default_block`, `_private_key`, `_default_address`). -/
structure TronState where
  defaultBlock : Option PyVal
  privateKey : Option String
  defaultAddress : Option (AddrStr × AddrStr)
deriving DecidableEq, Repr

/-- The freshly constructed session state: `_default_block = None`,
`_private_key = None`, `_default_address = AttributeDict({})`. -/
def tron0 : TronState := ⟨none, none, none⟩

/-- Modelled from the spec: `is_integer` (`tronapi.utils.types`, absent from
the source tree) — true exactly on integer values, no sign restriction.
(The `abs()` on `main.py` line 123 only makes sense if negative integers
pass this check.) -/
def is_integer : PyVal → Bool
  | .int _ => true
  | .str _ => false

/-- Python truthiness of a `PyVal`: `0` and `""` are falsy. -/
def PyVal.truthy : PyVal → Bool
  | .int n => n != 0
  | .str s => s != ""

/-- Python `str()` of a `PyVal`, used when formatting a request path. -/
def PyVal.render : PyVal → String
  | .int n => toString n
  | .str s => s

/-- The string an `AddrStr` stands for (the concrete rendering the model
gives the two encodings). -/
def AddrStr.render : AddrStr → String
  | .hexs i => "41x" ++ toString i
  | .b58s i => "Tx" ++ toString i
  | .bad s => s

/-- The abstract address identity an address string denotes (meaningful on
well-formed addresses only). -/
def AddrStr.addrId : AddrStr → Nat
  | .hexs i => i
  | .b58s i => i
  | .bad _ => 0

/-- Modelled from the spec: `is_address` (`tronapi.base.validation`, absent
from the source tree) — structural well-formedness check, no network call. -/
def is_address : AddrStr → Bool
  | .hexs _ => true
  | .b58s _ => true
  | .bad _ => false

/-- Python `str.lower()` on the character list of a string (ASCII — all the
key material in scope is hex). -/
def strLower (s : String) : String :=
  String.mk (s.data.map Char.toLower)

/-- Hex-digit test used by the private-key model. -/
def isHexChar (c : Char) : Bool :=
  c.isDigit || (('a' ≤ c) && (c ≤ 'f')) || (('A' ≤ c) && (c ≤ 'F'))

/-- Modelled from the spec: `PrivateKey` parsing (`tronapi.base.account`,
absent from the source tree) — a value parses iff it is a 64-character hex
string (a 32-byte scalar); the `str()` form of the parsed key is the value
itself. -/
def privateKeyParse (value : String) : Option String :=
  if value.length == 64 && value.toList.all isHexChar then some value else none

/-- Modelled from the spec: `Account.to_hex` (`tronapi.base.account`,
absent from the source tree) — converts a well-formed address of either
encoding to its hex encoding; raises on a malformed input. -/
def Account.to_hex : AddrStr → Except TErr AddrStr
  | .hexs i => .ok (.hexs i)
  | .b58s i => .ok (.hexs i)
  | .bad _ => .error (.invalidTronError "Invalid address provided")

/-- Modelled from the spec: `Account.from_hex` (`tronapi.base.account`,
absent from the source tree) — converts a well-formed address of either
encoding to its base58 encoding; raises on a malformed input. -/
def Account.from_hex : AddrStr → Except TErr AddrStr
  | .hexs i => .ok (.b58s i)
  | .b58s i => .ok (.b58s i)
  | .bad _ => .error (.invalidTronError "Invalid address provided")

/-- Modelled from the spec: the deterministic key → address derivation
underlying `Account.from_private_key`; only determinism matters to the
claims, so any fixed computable function of the key string serves. -/
def keyAddrId (k : String) : Nat :=
  k.data.foldl (fun n c => n + c.toNat) 0

/-- Modelled from the spec: `Account.from_private_key(...).base58`
(`tronapi.base.account`, absent from the source tree) — derives the base58
address of a key; raises on `None` or a malformed key, per the spec
sentence "fails with `InvalidKeyError` if the key is not a valid 32-byte
scalar". -/
def Account.from_private_key_base58 : Option String → Except TErr AddrStr
  | none => .error (.tronError "Invalid private key provided")
  | some k =>
      if (privateKeyParse k).isSome then .ok (.b58s (keyAddrId k))
      else .error (.tronError "Invalid private key provided")

/-- Modelled from the spec: `to_sun` (`tronapi.utils.currency`, absent from
the source tree) — display units × 10^6, truncated to the smallest integer
unit. -/
def to_sun : PyNum → Int
  | .int n => n * 1000000
  | .float q => ⌊q * 1000000⌋

/-- The attribute names a `Tron` instance actually has (`main.py`: class
body, properties, methods, and the fields assigned in `__init__`, plus the
`trx` module attached from `DEFAULT_MODULES`). -/
def tronAttrs : List String :=
  ["HTTPProvider", "_default_block", "_private_key", "_default_address",
   "toBytes", "toInt", "toHex", "toText", "toSun", "fromSun", "isAddress",
   "manager", "transaction_builder", "trx",
   "default_block", "providers", "private_key", "default_address",
   "get_event_result", "get_event_transaction_id", "address",
   "create_account", "is_valid_provider", "sha3", "is_connected"]

/-- Python attribute lookup `self.tron.<name>`: succeeds iff the `Tron`
instance has the attribute, otherwise raises `AttributeError`. -/
def tronLookup (name : String) : Except TErr Unit :=
  if tronAttrs.contains name then .ok () else .error (.attributeError name)

/-- `Tron.default_block` setter, `main.py` lines 113–123. -/
def set_default_block (s : TronState) (block_id : PyVal) :
    TronState × Option TErr :=
  if block_id = .str "latest" ∨ block_id = .str "earliest" ∨ block_id = .int 0 then
    ({ s with defaultBlock := some block_id }, none)
  else if !is_integer block_id || !block_id.truthy then
    (s, some (.valueError "Invalid block ID provided"))
  else
    match block_id with
    | .int n => ({ s with defaultBlock := some (.int (n.natAbs : Int)) }, none)
    | .str _ =>
        -- unreachable: a `.str` value fails `is_integer` above
        (s, some (.valueError "Invalid block ID provided"))

/-- `Tron.private_key` setter, `main.py` lines 135–148: parse with
`PrivateKey(value)`, re-raise `TronError` on `ValueError`, store
`str(private_key).lower()`. -/
def set_private_key (s : TronState) (value : String) :
    TronState × Option TErr :=
  match privateKeyParse value with
  | none => (s, some (.tronError "Invalid private key provided"))
  | some k => ({ s with privateKey := some (strLower k) }, none)

/-- `Tron.default_address` setter, `main.py` lines 155–179. The derived
hex, base58, and key-derived base58 forms are computed in source order
(the key derivation runs even when no key is set, and raises there);
then a mismatching held key is cleared and the address pair stored. -/
def set_default_address (s : TronState) (address : AddrStr) :
    TronState × Option TErr :=
  if !is_address address then
    (s, some (.invalidTronError "Invalid address provided"))
  else
    match Account.to_hex address with
    | .error e => (s, some e)
    | .ok hexForm =>
      match Account.from_hex address with
      | .error e => (s, some e)
      | .ok base58Form =>
        match Account.from_private_key_base58 s.privateKey with
        | .error e => (s, some e)
        | .ok privateBase58 =>
          let s1 :=
            if s.privateKey.isSome && privateBase58 != base58Form then
              { s with privateKey := none }
            else s
          ({ s1 with defaultAddress := some (hexForm, base58Form) }, none)

/-- Python truthiness of an optional string argument. -/
def optStrTruthy : Option String → Bool
  | none => false
  | some s => s != ""

/-- Python truthiness of the `contract_address` argument (well-formed
address strings are nonempty). -/
def optAddrTruthy : Option AddrStr → Bool
  | none => false
  | some _ => true

/-- `is_address` applied to a possibly-`None` argument. -/
def optIsAddress : Option AddrStr → Bool
  | none => false
  | some a => is_address a

/-- `Tron.get_event_result`, `main.py` lines 181–231: validation guards in
source order, then the route is joined and a single GET request issued. -/
def get_event_result (contract_address : Option AddrStr) (since : PyVal)
    (event_name : Option String) (block_number : Option String)
    (size : Int) (page : PyVal) : List Request × Except TErr Request :=
  if !optIsAddress contract_address then
    ([], .error (.invalidTronError "Invalid contract address provided"))
  else if optStrTruthy event_name && !optAddrTruthy contract_address then
    ([], .error (.tronError "Usage of event name filtering requires a contract address"))
  else if optStrTruthy block_number && event_name.isNone then
    ([], .error (.tronError "Usage of block number filtering requires an event name"))
  else if !is_integer page then
    ([], .error (.valueError "Invalid size provided"))
  else if !is_integer since then
    ([], .error (.valueError "Invalid sinceTimestamp provided"))
  else if 200 < size then
    ([], .error (.valueError "Defaulting to maximum accepted size: 200"))
  else
    let routeParams : List String :=
      (match contract_address with
       | some a => [a.render]
       | none => [])
      ++ (match event_name with
          | some e => if e != "" then [e] else []
          | none => [])
      ++ (match block_number with
          | some b => if b != "" then [b] else []
          | none => [])
    let route := String.intercalate "/" routeParams
    let req : Request :=
      ⟨"/event/contract/" ++ route ++ "?since=" ++ since.render
        ++ "&size=" ++ toString size ++ "&page=" ++ page.render,
       [], "get"⟩
    ([req], .ok req)

/-- The amount guard of `transactions.py` line 24:
`not isinstance(amount, float) and amount <= 0`. -/
def send_trx_amount_check (amount : PyNum) : Bool :=
  (match amount with
   | .float _ => false
   | .int _ => true)
  && (match amount with
      | .int n => n ≤ 0
      | .float q => q ≤ 0)

/-- Stand-in semantics for the address-to-hex resolution attempted by
`transactions.py` lines 27–28; the branch using it is unreachable because
the `to_hex` attribute lookup on `Tron` fails first. -/
def hexNorm : AddrStr → AddrStr
  | .hexs i => .hexs i
  | .b58s i => .hexs i
  | .bad s => .bad s

/-- `TransactionBuilder.send_trx`, `transactions.py` lines 8–37. Each
`self.tron.<name>` access goes through `tronLookup`; the guards and the
final `/wallet/createtransaction` POST follow the source order (the callee
`self.tron.full_node.request` is evaluated before its argument dict, hence
before the `to_tron` lookup). -/
def send_trx (toAddr : AddrStr) (amount : PyNum) (account : AddrStr) :
    List Request × Except TErr Request :=
  match tronLookup "is_address" with
  | .error e => ([], .error e)
  | .ok _ =>
    if !is_address toAddr then
      ([], .error (.invalidTronError "Invalid recipient address provided"))
    else if send_trx_amount_check amount then
      ([], .error (.invalidTronError "Invalid amount provided"))
    else
      match tronLookup "to_hex" with
      | .error e => ([], .error e)
      | .ok _ =>
        let toHexForm := hexNorm toAddr
        let fromHexForm := hexNorm account
        if toHexForm = fromHexForm then
          ([], .error (.tronError "Cannot transfer TRX to the same account"))
        else
          match tronLookup "full_node" with
          | .error e => ([], .error e)
          | .ok _ =>
            match tronLookup "to_tron" with
            | .error e => ([], .error e)
            | .ok _ =>
              let req : Request :=
                ⟨"/wallet/createtransaction",
                 [("to_address", toHexForm.render),
                  ("owner_address", fromHexForm.render),
                  ("amount", toString (to_sun amount))],
                 "post"⟩
              ([req], .ok req)

/-- `true` iff an `Except` holds a value (no exception escaped). -/
def isOkE {α : Type} : Except TErr α → Bool
  | .ok _ => true
  | .error _ => false

/-- A sample upper-case 64-character hex key used by the witnesses. -/
def pkSampleUpper : String :=
  "ABCDEF0123456789ABCDEF0123456789ABCDEF0123456789ABCDEF0123456789"

/-- The lower-cased form of `pkSampleUpper`. -/
def pkSampleLower : String :=
  "abcdef0123456789abcdef0123456789abcdef0123456789abcdef0123456789"

/-! ## Theorems about the claims -/

/-- C1: for every input `(to, amount, account)`, `TransactionBuilder.send_trx`
raises an attribute-lookup error before any validation or network call: its
very first access, `self.tron.is_address`, fails because the `Tron` class
defines `isAddress`, `toHex`, `toSun` and `manager`, not `is_address`,
`to_hex`, `to_tron`, `full_node`. -/
theorem send_trx_always_attribute_error (toAddr : AddrStr) (amount : PyNum)
    (account : AddrStr) :
    send_trx toAddr amount account =
      ([], .error (.attributeError "is_address")) := rfl

/-- Auxiliary record of the name mismatch: every attribute `send_trx`
accesses on its `Tron` instance is missing, while the near-miss names the
class does define are present. -/
theorem tron_missing_send_trx_attrs :
    tronLookup "is_address" = .error (.attributeError "is_address") ∧
    tronLookup "to_hex" = .error (.attributeError "to_hex") ∧
    tronLookup "to_tron" = .error (.attributeError "to_tron") ∧
    tronLookup "full_node" = .error (.attributeError "full_node") ∧
    tronAttrs.contains "isAddress" = true ∧
    tronAttrs.contains "toHex" = true ∧
    tronAttrs.contains "toSun" = true ∧
    tronAttrs.contains "manager" = true := by
  refine ⟨rfl, rfl, rfl, rfl, rfl, rfl, rfl, rfl⟩

/-- C2 (counterexample): setting `default_block` to `-1` does not fail with
`ValidationError`; the setter succeeds and stores `1`. -/
theorem default_block_minus_one_accepted :
    set_default_block tron0 (.int (-1)) =
      ({ tron0 with defaultBlock := some (.int 1) }, none) := rfl

/-- Helper: on any integer input the `default_block` setter succeeds and
stores the absolute value. -/
theorem set_default_block_int_eq (s : TronState) (n : Int) :
    set_default_block s (.int n) =
      ({ s with defaultBlock := some (.int (n.natAbs : Int)) }, none) := by
  by_cases h : n = 0
  · subst h; rfl
  · simp [set_default_block, is_integer, PyVal.truthy, h]

/-- Helper: on a non-sentinel string the `default_block` setter raises
`ValueError` and leaves the state unchanged. -/
theorem set_default_block_str_ne (s : TronState) (t : String)
    (h1 : t ≠ "latest") (h2 : t ≠ "earliest") :
    set_default_block s (.str t) =
      (s, some (.valueError "Invalid block ID provided")) := by
  simp [set_default_block, is_integer, PyVal.truthy, h1, h2]

/-- C2 (amended): the `default_block` setter accepts the sentinels
`"latest"` and `"earliest"` (stored as given) and every integer — a
negative integer is accepted, with its absolute value stored, so `-1`
succeeds and stores `1` — and fails with `ValueError` (the error kind the
spec calls `ValidationError`) on every other string, e.g. `"soon"`. -/
theorem default_block_amended (s : TronState) :
    (set_default_block s (.str "latest") =
      ({ s with defaultBlock := some (.str "latest") }, none)) ∧
    (set_default_block s (.str "earliest") =
      ({ s with defaultBlock := some (.str "earliest") }, none)) ∧
    (∀ n : Int, set_default_block s (.int n) =
      ({ s with defaultBlock := some (.int (n.natAbs : Int)) }, none)) ∧
    (∀ t : String, t ≠ "latest" → t ≠ "earliest" →
      set_default_block s (.str t) =
        (s, some (.valueError "Invalid block ID provided"))) :=
  ⟨rfl, rfl, set_default_block_int_eq s, set_default_block_str_ne s⟩

/-- Witness for `default_block_amended` at concrete inputs. -/
theorem default_block_amended_witness :
    set_default_block tron0 (.str "soon") =
      (tron0, some (.valueError "Invalid block ID provided")) :=
  (default_block_amended tron0).2.2.2 "soon" (by decide) (by decide)

/-- C10: after every assignment to `default_block` that does not raise, the
stored value is `"latest"`, `"earliest"`, or a non-negative integer — never
a negative one — and for an integer input `n` the stored value is `abs n`. -/
theorem default_block_invariant (s : TronState) (v : PyVal)
    (h : (set_default_block s v).2 = none) :
    (∃ d, (set_default_block s v).1.defaultBlock = some d ∧
      (d = .str "latest" ∨ d = .str "earliest" ∨
        ∃ n : Int, 0 ≤ n ∧ d = .int n)) ∧
    (∀ m : Int, v = .int m →
      (set_default_block s v).1.defaultBlock =
        some (.int (m.natAbs : Int))) := by
  cases v with
  | int n =>
      rw [set_default_block_int_eq s n]
      constructor
      · exact ⟨.int (n.natAbs : Int), rfl, .inr (.inr ⟨(n.natAbs : Int), by positivity, rfl⟩)⟩
      · intro m hm
        cases hm
        rfl
  | str t =>
      by_cases h1 : t = "latest"
      · subst h1
        exact ⟨⟨.str "latest", rfl, .inl rfl⟩, by intro m hm; cases hm⟩
      · by_cases h2 : t = "earliest"
        · subst h2
          exact ⟨⟨.str "earliest", rfl, .inr (.inl rfl)⟩, by intro m hm; cases hm⟩
        · rw [set_default_block_str_ne s t h1 h2] at h
          cases h

/-- Witness for `default_block_invariant`: setting the block to `-7`
succeeds and stores `7`. -/
theorem default_block_invariant_witness :
    (set_default_block tron0 (.int (-7))).1.defaultBlock = some (.int 7) :=
  (default_block_invariant tron0 (.int (-7)) (by decide)).2 (-7) rfl

/-- C3 (evaluation at the failing input): with a valid recipient, a valid
distinct sender and amount `-5.0`, `send_trx` raises
`AttributeError("is_address")`, not the claimed `InvalidAmountError`; and
the guard of `transactions.py` line 24,
`not isinstance(amount, float) and amount <= 0`, is `false` on every
float, so even with the attribute lookups repaired `-5.0` would pass
validation — only non-float non-positive amounts are caught. -/
theorem send_trx_amount_guard_bug :
    send_trx (.b58s 1) (.float (-5)) (.b58s 2) =
      ([], .error (.attributeError "is_address")) ∧
    send_trx_amount_check (.float (-5)) = false ∧
    send_trx_amount_check (.int (-5)) = true ∧
    send_trx_amount_check (.int 0) = true := by
  refine ⟨rfl, rfl, by decide, by decide⟩

/-- C5 (evaluation at the failing input): transferring between the base58
and the hex spelling of one and the same account does not raise
`SameAccountError`; `send_trx` fails first with
`AttributeError("is_address")`, so the same-account comparison of
`transactions.py` lines 30–31 is never reached — although the two inputs
do resolve to the same hex form. -/
theorem send_trx_same_account_bug :
    send_trx (.b58s 7) (.int 10) (.hexs 7) =
      ([], .error (.attributeError "is_address")) ∧
    hexNorm (.b58s 7) = hexNorm (.hexs 7) :=
  ⟨rfl, rfl⟩

/-- C9 (counterexample): on the valid hex address `AddrStr.hexs 0` the
composition exactly as claimed — `hex_to_base58 (base58_to_hex h)`, that
is `Account.from_hex` applied after `Account.to_hex` — returns the base58
form of the address, which differs from `h`. -/
theorem address_roundtrip_literal_fails :
    (Account.to_hex (.hexs 0)).bind Account.from_hex = .ok (.b58s 0) ∧
    AddrStr.b58s 0 ≠ AddrStr.hexs 0 :=
  ⟨rfl, by decide⟩

/-- C9 (amended): with the two transforms composed in the type-correct
order the round trips do hold on every well-formed address: hex → base58 →
hex is the identity on hex addresses, and base58 → hex → base58 is the
identity on base58 addresses. -/
theorem address_roundtrip_amended (i : Nat) :
    (Account.from_hex (.hexs i)).bind Account.to_hex = .ok (.hexs i) ∧
    (Account.to_hex (.b58s i)).bind Account.from_hex = .ok (.b58s i) :=
  ⟨rfl, rfl⟩

/-- C4 (counterexample): a call with `since = -1` — valid contract
address, integral `page`, `size` within range — does not fail with
`ValidationError`: the event request is issued. -/
theorem get_event_result_negative_since_accepted :
    isOkE (get_event_result (some (.b58s 3)) (.int (-1))
      none none 20 (.int 1)).2 = true ∧
    (get_event_result (some (.b58s 3)) (.int (-1))
      none none 20 (.int 1)).1.length = 1 :=
  ⟨rfl, rfl⟩

/-- C4 (amended): with a valid contract address and no event/block filter,
`get_event_result` rejects a non-integral `page` or `since` and a `size`
above 200 with `ValueError` (the error kind the spec calls
`ValidationError`) before issuing any request; but a negative integer
`since` or `page` is accepted and the request is issued. -/
theorem get_event_result_amended (i : Nat) (since page : PyVal) (size : Int) :
    (is_integer page = false →
      get_event_result (some (.b58s i)) since none none size page =
        ([], .error (.valueError "Invalid size provided"))) ∧
    (is_integer page = true → is_integer since = false →
      get_event_result (some (.b58s i)) since none none size page =
        ([], .error (.valueError "Invalid sinceTimestamp provided"))) ∧
    (is_integer page = true → is_integer since = true → 200 < size →
      get_event_result (some (.b58s i)) since none none size page =
        ([], .error (.valueError "Defaulting to maximum accepted size: 200"))) ∧
    (∀ n m : Int, since = .int n → page = .int m → size ≤ 200 →
      (get_event_result (some (.b58s i)) since none none size page).1.length = 1 ∧
      isOkE (get_event_result (some (.b58s i)) since none none size page).2 = true) := by
  refine ⟨?_, ?_, ?_, ?_⟩
  · intro hp
    cases page with
    | int m => simp [is_integer] at hp
    | str t => rfl
  · intro hp hs
    cases page with
    | str t => simp [is_integer] at hp
    | int m =>
      cases since with
      | int n => simp [is_integer] at hs
      | str t => rfl
  · intro hp hs hsz
    cases page with
    | str t => simp [is_integer] at hp
    | int m =>
      cases since with
      | str t => simp [is_integer] at hs
      | int n =>
        simp [get_event_result, optIsAddress, is_address, optStrTruthy,
          optAddrTruthy, is_integer, hsz]
  · intro n m hn hm hsz
    subst hn; subst hm
    constructor
    · simp [get_event_result, optIsAddress, is_address, optStrTruthy,
        optAddrTruthy, is_integer, not_lt.mpr hsz]
    · simp [get_event_result, optIsAddress, is_address, optStrTruthy,
        optAddrTruthy, is_integer, not_lt.mpr hsz, isOkE]

/-- Witness for `get_event_result_amended`: a non-integral `since` is
rejected with `ValueError` and no request. -/
theorem get_event_result_amended_witness :
    get_event_result (some (.b58s 3)) (.str "x") none none 20 (.int 1) =
      ([], .error (.valueError "Invalid sinceTimestamp provided")) :=
  (get_event_result_amended 3 (.str "x") (.int 1) 20).2.1 rfl rfl

/-- C7: the `private_key` setter stores the lower-cased string form of the
parsed key on success, and on every malformed value fails (`TronError`,
the error kind the spec calls `InvalidKeyError`) leaving the stored key —
and the whole session state — unchanged. -/
theorem private_key_setter_spec (s : TronState) (v : String) :
    (∀ p, privateKeyParse v = some p →
      set_private_key s v =
        ({ s with privateKey := some (strLower p) }, none)) ∧
    (privateKeyParse v = none →
      set_private_key s v =
        (s, some (.tronError "Invalid private key provided"))) := by
  constructor
  · intro p hp
    simp [set_private_key, hp]
  · intro hp
    simp [set_private_key, hp]

/-- Witness for `private_key_setter_spec`: a valid upper-case key is stored
lower-cased; a malformed value raises and leaves the state unchanged. -/
theorem private_key_setter_spec_witness :
    set_private_key tron0 pkSampleUpper =
      ({ tron0 with privateKey := some pkSampleLower }, none) ∧
    set_private_key tron0 "nonsense" =
      (tron0, some (.tronError "Invalid private key provided")) := by
  refine ⟨?_, (private_key_setter_spec tron0 "nonsense").2 (by decide)⟩
  have h := (private_key_setter_spec tron0 pkSampleUpper).1 pkSampleUpper (by decide)
  rw [h]
  decide

/-- C6: whenever setting the default address succeeds, the stored default
address holds the hex and the base58 encoding of the given address; and if
a private key was already set whose derived address does not match the new
address, the key field is cleared to `None`. -/
theorem default_address_consistency (s : TronState) (a : AddrStr)
    (h : (set_default_address s a).2 = none) :
    (set_default_address s a).1.defaultAddress =
      some (.hexs a.addrId, .b58s a.addrId) ∧
    (∀ k, s.privateKey = some k → keyAddrId k ≠ a.addrId →
      (set_default_address s a).1.privateKey = none) := by
  cases a with
  | bad t => simp [set_default_address, is_address] at h
  | hexs i =>
      cases hk : s.privateKey with
      | none =>
          rw [set_default_address, if_neg] at h
          · simp [Account.to_hex, Account.from_hex,
              Account.from_private_key_base58, hk] at h
          · simp [is_address]
      | some k =>
          by_cases hv : (privateKeyParse k).isSome
          · constructor
            · simp [set_default_address, is_address, Account.to_hex,
                Account.from_hex, Account.from_private_key_base58, hk, hv,
                AddrStr.addrId]
            · intro k2 hk2 hne
              obtain rfl : k = k2 := Option.some.inj hk2
              simp only [AddrStr.addrId] at hne
              simp [set_default_address, is_address, Account.to_hex,
                Account.from_hex, Account.from_private_key_base58, hk, hv,
                hne]
          · rw [set_default_address, if_neg] at h
            · simp [Account.to_hex, Account.from_hex,
                Account.from_private_key_base58, hk, hv] at h
            · simp [is_address]
  | b58s i =>
      cases hk : s.privateKey with
      | none =>
          rw [set_default_address, if_neg] at h
          · simp [Account.to_hex, Account.from_hex,
              Account.from_private_key_base58, hk] at h
          · simp [is_address]
      | some k =>
          by_cases hv : (privateKeyParse k).isSome
          · constructor
            · simp [set_default_address, is_address, Account.to_hex,
                Account.from_hex, Account.from_private_key_base58, hk, hv,
                AddrStr.addrId]
            · intro k2 hk2 hne
              obtain rfl : k = k2 := Option.some.inj hk2
              simp only [AddrStr.addrId] at hne
              simp [set_default_address, is_address, Account.to_hex,
                Account.from_hex, Account.from_private_key_base58, hk, hv,
                hne]
          · rw [set_default_address, if_neg] at h
            · simp [Account.to_hex, Account.from_hex,
                Account.from_private_key_base58, hk, hv] at h
            · simp [is_address]

/-- Witness for `default_address_consistency`: with a key held whose
derived address differs from address `1`, setting the default address to
the base58 form of address `1` stores both encodings and clears the key. -/
theorem default_address_consistency_witness :
    (set_default_address ⟨none, some pkSampleLower, none⟩
      (.b58s 1)).1.defaultAddress = some (.hexs 1, .b58s 1) ∧
    (set_default_address ⟨none, some pkSampleLower, none⟩
      (.b58s 1)).1.privateKey = none := by
  have h := default_address_consistency ⟨none, some pkSampleLower, none⟩
    (.b58s 1) (by decide)
  exact ⟨h.1, h.2 pkSampleLower rfl (by decide)⟩

/-- C8: across the specified slice every failing call performs no side
effect — `send_trx` and `get_event_result` have issued no request when
they raise (and the setters never issue requests at all, having no request
site), and each of the three session setters leaves the session state
untouched when it raises. -/
theorem no_partial_effects_on_failure :
    (∀ toAddr amount account reqs e,
      send_trx toAddr amount account = (reqs, .error e) → reqs = []) ∧
    (∀ ca since en bn size page reqs e,
      get_event_result ca since en bn size page = (reqs, .error e) →
        reqs = []) ∧
    (∀ s v s2 e, set_default_block s v = (s2, some e) → s2 = s) ∧
    (∀ s v s2 e, set_private_key s v = (s2, some e) → s2 = s) ∧
    (∀ s a s2 e, set_default_address s a = (s2, some e) → s2 = s) := by
  refine ⟨?_, ?_, ?_, ?_, ?_⟩
  · intro toAddr amount account reqs e hcall
    have hr : send_trx toAddr amount account =
        ([], .error (.attributeError "is_address")) := rfl
    rw [hr] at hcall
    exact (Prod.mk.injEq _ _ _ _ ▸ hcall).1.symm
  · intro ca since en bn size page reqs e hcall
    unfold get_event_result at hcall
    split at hcall
    · exact (Prod.mk.injEq _ _ _ _ ▸ hcall).1.symm
    · split at hcall
      · exact (Prod.mk.injEq _ _ _ _ ▸ hcall).1.symm
      · split at hcall
        · exact (Prod.mk.injEq _ _ _ _ ▸ hcall).1.symm
        · split at hcall
          · exact (Prod.mk.injEq _ _ _ _ ▸ hcall).1.symm
          · split at hcall
            · exact (Prod.mk.injEq _ _ _ _ ▸ hcall).1.symm
            · split at hcall
              · exact (Prod.mk.injEq _ _ _ _ ▸ hcall).1.symm
              · simp at hcall
  · intro s v s2 e hcall
    unfold set_default_block at hcall
    split at hcall
    · simp at hcall
    · split at hcall
      · exact (Prod.mk.injEq _ _ _ _ ▸ hcall).1.symm
      · split at hcall
        · simp at hcall
        · exact (Prod.mk.injEq _ _ _ _ ▸ hcall).1.symm
  · intro s v s2 e hcall
    unfold set_private_key at hcall
    split at hcall
    · exact (Prod.mk.injEq _ _ _ _ ▸ hcall).1.symm
    · simp at hcall
  · intro s a s2 e hcall
    unfold set_default_address at hcall
    split at hcall
    · exact (Prod.mk.injEq _ _ _ _ ▸ hcall).1.symm
    · split at hcall
      · exact (Prod.mk.injEq _ _ _ _ ▸ hcall).1.symm
      · split at hcall
        · exact (Prod.mk.injEq _ _ _ _ ▸ hcall).1.symm
        · split at hcall
          · exact (Prod.mk.injEq _ _ _ _ ▸ hcall).1.symm
          · simp at hcall

/-- Witness for `no_partial_effects_on_failure`: one failing call per
operation, each leaving no trace. -/
theorem no_partial_effects_on_failure_witness :
    (send_trx (.b58s 1) (.int 5) (.b58s 2)).1 = [] ∧
    (get_event_result none (.int 0) none none 20 (.int 1)).1 = [] ∧
    (set_default_block tron0 (.str "soon")).1 = tron0 ∧
    (set_private_key tron0 "bad").1 = tron0 ∧
    (set_default_address tron0 (.bad "q")).1 = tron0 :=
  ⟨no_partial_effects_on_failure.1 (.b58s 1) (.int 5) (.b58s 2) _
      (.attributeError "is_address") rfl,
   no_partial_effects_on_failure.2.1 none (.int 0) none none 20 (.int 1) _
      (.invalidTronError "Invalid contract address provided") rfl,
   no_partial_effects_on_failure.2.2.1 tron0 (.str "soon") _
      (.valueError "Invalid block ID provided") (by decide),
   no_partial_effects_on_failure.2.2.2.1 tron0 "bad" _
      (.tronError "Invalid private key provided") (by decide),
   no_partial_effects_on_failure.2.2.2.2 tron0 (.bad "q") _
      (.invalidTronError "Invalid address provided") rfl⟩
